import Mathlib

/-!
Verification development for the Fortex-InfraSense frequency-based
infrastructure-stress decision engine.

The backend engine (`backend/advanced_analysis.py`) is referenced throughout
the repository (integration guide, dashboard README, the frontend
`analysis-script-enhanced.js` that consumes its JSON output) but its source is
not part of the bundle; only its callers, documentation and hardcoded sample
payloads are.  The engine components (PatternAnalyzer, InterventionClassifier,
PriorityScorer, RecommendationGenerator, AreaAggregator) are therefore
modelled from the specification.  The frontend dashboard logic
(`updateStatistics`, `loadSampleData` in
`src/foss01-main/frontend/analysis-script-enhanced.js`) is embedded directly
from the JavaScript source.

All congestion values and costs are rationals; priority scores are integers.
-/

namespace InfraSense

/-- Traffic trend over the analysis window. -/
inductive Trend where
  | increasing
  | decreasing
  | stable
deriving DecidableEq, Repr

/-- Intervention-priority tier of a road. -/
inductive PriorityTier where
  | critical
  | high
  | medium
  | low
  | monitor
deriving DecidableEq, Repr

/-- Kind of a recommended intervention. -/
inductive RecType where
  | widening
  | flyover
  | bridge
  | maintenance
  | signals
  | planning
deriving DecidableEq, Repr

/-- Road classification used by the recommended-lanes table. -/
inductive RoadType where
  | highway
  | primary
  | secondary
  | tertiary
  | residential
deriving DecidableEq, Repr

/-- One observation from the external traffic sample store.  `congestion` is
the derived clamp(0,1, 1 - speed/freeFlowSpeed) value, already normalised by
the store (see the `traffic_history` schema in the integration guide where
`congestion` is a stored generated column). -/
structure TrafficSample where
  day : ℕ
  hour : ℕ
  congestion : ℚ
deriving DecidableEq, Repr

/-- Static attributes of a road segment (geometry omitted; not used by the
decision engine beyond display). -/
structure RoadMetadata where
  id : ℕ
  name : String
  roadType : RoadType
  lengthKm : ℚ
  lanes : ℕ
  intersectionCount : ℕ
deriving DecidableEq, Repr

/-- Derived per-road, per-window traffic pattern. -/
structure TrafficPattern where
  frequencyScore : ℚ
  highTrafficDayCount : ℕ
  peakHours : List ℕ
  trend : Trend
  weeklyAverage : List ℚ
deriving DecidableEq, Repr

/-- Derived congestion metrics over the window. -/
structure CongestionMetrics where
  avgCongestion : ℚ
  maxCongestion : ℚ
  peakCongestion : ℚ
deriving DecidableEq, Repr

/-- Average of a list of rationals; `0` on the empty list (division by the
zero length yields `0` in `ℚ`). -/
def qavg (l : List ℚ) : ℚ := l.sum / l.length

/-- Congestion threshold above which a day counts as high-traffic
(HIGH_TRAFFIC_THRESHOLD = 0.70, `self.traffic_threshold = 0.7` in the
integration guide). -/
def HIGH_TRAFFIC_THRESHOLD : ℚ := 7/10

/-- Distinct calendar days present in a sample sequence, in first-seen order. -/
def sampleDays (samples : List TrafficSample) : List ℕ :=
  (samples.map (fun s => s.day)).dedup

/-- Average congestion of one calendar day across its samples. -/
def dailyCongestion (samples : List TrafficSample) (d : ℕ) : ℚ :=
  qavg ((samples.filter (fun s => s.day = d)).map (fun s => s.congestion))

/-- Days whose average congestion reaches the high-traffic threshold. -/
def highTrafficDays (samples : List TrafficSample) : List ℕ :=
  (sampleDays samples).filter
    (fun d => HIGH_TRAFFIC_THRESHOLD ≤ dailyCongestion samples d)

/-- Modelled from the spec: PatternAnalyzer step 3 (`backend/advanced_analysis.py`
is absent from the bundle).  `frequencyScore = highTrafficDayCount /
totalDaysWithData`, with the number of days actually observed as denominator. -/
def frequencyScore (samples : List TrafficSample) : ℚ :=
  ((highTrafficDays samples).length : ℚ) / ((sampleDays samples).length : ℚ)

/-- Average congestion of one hour-of-day bucket across the window. -/
def hourAvg (samples : List TrafficSample) (h : ℕ) : ℚ :=
  qavg ((samples.filter (fun s => s.hour = h)).map (fun s => s.congestion))

/-- Peak-hour ranking: higher average congestion first, ties broken by the
lower hour value. -/
@[reducible] def peakHourRel (samples : List TrafficSample) (h1 h2 : ℕ) : Prop :=
  hourAvg samples h2 < hourAvg samples h1 ∨
    (hourAvg samples h1 = hourAvg samples h2 ∧ h1 ≤ h2)

instance (samples : List TrafficSample) : DecidableRel (peakHourRel samples) :=
  fun _ _ => inferInstanceAs (Decidable (_ ∨ _))

/-- Modelled from the spec: PatternAnalyzer step 4.  Top-3 hours by average
congestion, ties broken by lower hour value. -/
def peakHours (samples : List TrafficSample) : List ℕ :=
  (((samples.map (fun s => s.hour)).dedup).insertionSort
    (peakHourRel samples)).take 3

/-- Modelled from the spec: PatternAnalyzer step 5.  Compare the average
daily congestion of the first third of the observed days against the last
third; a 10-percentage-point margin decides increasing/decreasing. -/
def trendOf (samples : List TrafficSample) : Trend :=
  let ds := (sampleDays samples).insertionSort (fun a b => a ≤ b)
  let k := ds.length / 3
  if k = 0 then Trend.stable
  else
    let firstAvg := qavg ((ds.take k).map (dailyCongestion samples))
    let lastAvg := qavg ((ds.drop (ds.length - k)).map (dailyCongestion samples))
    if firstAvg + 1/10 ≤ lastAvg then Trend.increasing
    else if lastAvg + 1/10 ≤ firstAvg then Trend.decreasing
    else Trend.stable

/-- Modelled from the spec: the `weeklyAverage` mapping day-of-week →
average congestion, with day-of-week taken as `day % 7`; buckets listed in
first-seen order of their weekday. -/
def weeklyAverage (samples : List TrafficSample) : List ℚ :=
  ((samples.map (fun s => s.day % 7)).dedup).map
    (fun w => qavg ((samples.filter (fun s => s.day % 7 = w)).map
      (fun s => s.congestion)))

/-- Maximum congestion over all samples (0 on empty input). -/
def maxCongestionOf (samples : List TrafficSample) : ℚ :=
  (samples.map (fun s => s.congestion)).foldr max 0

/-- Modelled from the spec: `PatternAnalyzer.analyzePattern(samples,
windowDays) → (TrafficPattern, CongestionMetrics)` of §4.1
(`backend/advanced_analysis.py` is absent from the bundle).  Groups samples by
calendar day, scores frequency over observed days, extracts peak hours, trend
and weekly averages; degrades to a zero-valued pattern on empty input rather
than raising, per §4.1/§7.  `windowDays` only selects the caller's lookback
window and does not enter the computation (observed days are the denominator,
§4.1 step 3). -/
def analyzePattern (samples : List TrafficSample) (windowDays : ℕ) :
    TrafficPattern × CongestionMetrics :=
  let _ := windowDays
  ({ frequencyScore := frequencyScore samples
     highTrafficDayCount := (highTrafficDays samples).length
     peakHours := peakHours samples
     trend := trendOf samples
     weeklyAverage := weeklyAverage samples },
   { avgCongestion := qavg (samples.map (fun s => s.congestion))
     maxCongestion := maxCongestionOf samples
     peakCongestion := maxCongestionOf samples })

/-- Modelled from the spec: `InterventionClassifier.classify` of §4.2
(`determine_intervention_need` in the absent `backend/advanced_analysis.py`).
The decision matrix is evaluated top-down, first match wins. -/
def classify (p : TrafficPattern) (m : CongestionMetrics) :
    Bool × String × PriorityTier :=
  if 86/100 ≤ p.frequencyScore ∧ 9/10 ≤ m.maxCongestion then
    (true, "daily extreme congestion", PriorityTier.critical)
  else if 71/100 ≤ p.frequencyScore ∧ 7/10 ≤ m.avgCongestion then
    (true, "regular severe congestion - plan widening", PriorityTier.high)
  else if 57/100 ≤ p.frequencyScore ∧ 6/10 ≤ m.avgCongestion then
    (true, "regular congestion - optimize signals or widen", PriorityTier.high)
  else if 57/100 ≤ p.frequencyScore then
    (true, "recurring pattern - plan intervention", PriorityTier.medium)
  else if 9/10 ≤ m.maxCongestion ∧ 3/10 ≤ p.frequencyScore then
    (true, "occasional severe congestion", PriorityTier.medium)
  else if p.trend = Trend.increasing ∧ 3/10 ≤ p.frequencyScore then
    (true, "growth concern - reserve right-of-way", PriorityTier.medium)
  else
    (false, "traffic within acceptable limits", PriorityTier.monitor)

/-- Clamp a real number to the unit interval. -/
noncomputable def clamp01 (x : ℝ) : ℝ := max 0 (min 1 x)

/-- Population variance of a list of rationals (0 on the empty list). -/
def varQ (l : List ℚ) : ℚ := qavg (l.map (fun x => (x - qavg l) ^ 2))

/-- Modelled from the spec: the trend bonus of PriorityScorer §4.3
(1.0 if increasing, 0.5 if stable, 0.0 if decreasing). -/
noncomputable def trendBonus : Trend → ℝ
  | Trend.increasing => 1
  | Trend.stable => 1/2
  | Trend.decreasing => 0

/-- Modelled from the spec: the consistency factor of PriorityScorer §4.3,
`1 - stddev(weeklyAverage values)` clamped to [0,1]
(`backend/advanced_analysis.py` is absent from the bundle). -/
noncomputable def consistency (weekly : List ℚ) : ℝ :=
  clamp01 (1 - Real.sqrt ((varQ weekly : ℚ) : ℝ))

/-- Modelled from the spec: `PriorityScorer.score(pattern, metrics)` of §4.3
(`calculate_priority` in the absent `backend/advanced_analysis.py`):
`score = frequencyScore*40 + maxCongestion*30 + consistency*20 +
trendBonus*10`, rounded to the nearest integer. -/
noncomputable def score (p : TrafficPattern) (m : CongestionMetrics) : ℤ :=
  round (((p.frequencyScore : ℝ) * 40) + ((m.maxCongestion : ℝ) * 30) +
    consistency p.weeklyAverage * 20 + trendBonus p.trend * 10)

/-- One proposed intervention.  The recommendation-level `priority` is the
free-form high/medium/low string the backend emits and the frontend matches
on (`rec.priority === 'high' || rec.priority === 'critical'` in
`updateStatistics`). -/
structure Recommendation where
  recType : RecType
  priority : String
  title : String
  description : String
  reason : String
  estimatedCostCrore : ℚ
  timeline : String
  expectedImpact : String
  implementationPhases : List String
deriving DecidableEq, Repr

/-- Modelled from the spec: the recommended-lanes table of §4.4
(`_get_recommended_lanes` in the integration guide: highway→6, primary→4,
secondary→3, tertiary/residential→2). -/
def recommendedLanes : RoadType → ℕ
  | RoadType.highway => 6
  | RoadType.primary => 4
  | RoadType.secondary => 3
  | RoadType.tertiary => 2
  | RoadType.residential => 2

/-- Widening recommendation: cost = lengthKm × 8.5 crore (the
`widening_per_km = 8.5` table), 12-18 months, five-phase plan. -/
def wideningRec (meta : RoadMetadata) (p : TrafficPattern) : Recommendation :=
  { recType := RecType.widening
    priority := "high"
    title := "Widen road"
    description := "Expand road width to handle peak hour traffic"
    reason := "Congestion occurs on " ++ toString p.highTrafficDayCount ++
      " observed days"
    estimatedCostCrore := meta.lengthKm * (17/2)
    timeline := "12-18 months"
    expectedImpact := "Increase in capacity"
    implementationPhases :=
      ["Design and DPR", "Land acquisition", "Construction phase 1",
       "Construction phase 2", "Commissioning"] }

/-- Flyover recommendation: cost = lengthKm × 45.0 crore, 18-30 months. -/
def flyoverRec (meta : RoadMetadata) (p : TrafficPattern) : Recommendation :=
  { recType := RecType.flyover
    priority := "high"
    title := "Construct flyover"
    description := "Grade separation for through traffic"
    reason := "Congestion occurs on " ++ toString p.highTrafficDayCount ++
      " observed days"
    estimatedCostCrore := meta.lengthKm * 45
    timeline := "18-30 months"
    expectedImpact := "Grade-separated through movement"
    implementationPhases := [] }

/-- Signals recommendation: cost = intersectionCount × 0.15 crore, 3-6 months. -/
def signalsRec (meta : RoadMetadata) (p : TrafficPattern) : Recommendation :=
  { recType := RecType.signals
    priority := "medium"
    title := "Optimize traffic signals"
    description := "Signal timing optimization at intersections"
    reason := "Congestion occurs on " ++ toString p.highTrafficDayCount ++
      " observed days"
    estimatedCostCrore := (meta.intersectionCount : ℚ) * (3/20)
    timeline := "3-6 months"
    expectedImpact := "Improved junction throughput"
    implementationPhases := [] }

/-- Planning recommendation: cost = lengthKm × 2.5 crore, 2-5 years. -/
def planningRec (meta : RoadMetadata) (_p : TrafficPattern) : Recommendation :=
  { recType := RecType.planning
    priority := "low"
    title := "Reserve right-of-way"
    description := "Land-acquisition planning for future expansion"
    reason := "Traffic trend is increasing"
    estimatedCostCrore := meta.lengthKm * (5/2)
    timeline := "2-5 years"
    expectedImpact := "Future capacity secured"
    implementationPhases := [] }

/-- Maintenance recommendation: cost = lengthKm × 2.0 crore, 2-4 months. -/
def maintenanceRec (meta : RoadMetadata) (p : TrafficPattern) : Recommendation :=
  { recType := RecType.maintenance
    priority := "medium"
    title := "Road maintenance"
    description := "Resurfacing and minor geometric improvements"
    reason := "Congestion occurs on " ++ toString p.highTrafficDayCount ++
      " observed days"
    estimatedCostCrore := meta.lengthKm * 2
    timeline := "2-4 months"
    expectedImpact := "Improved ride quality"
    implementationPhases := [] }

/-- Modelled from the spec: `RecommendationGenerator.generate(roadMetadata,
pattern, metrics, priority)` of §4.4 (`generate_recommendations` in the absent
`backend/advanced_analysis.py`).  Returns the empty sequence exactly on
MONITOR; every other tier falls through to the maintenance default when no
earlier rule matches.  The HIGH-tier widening rule reflects §4.2 rule 2
("plan widening") and Scenario 3 of §8, which expect a widening
recommendation with cost lengthKm × 8.5 for a HIGH road with
frequencyScore ≥ 0.71 and avgCongestion ≥ 0.70. -/
def generate (meta : RoadMetadata) (p : TrafficPattern) (m : CongestionMetrics)
    (pr : PriorityTier) : List Recommendation :=
  if pr = PriorityTier.monitor then []
  else if pr = PriorityTier.critical ∧ (8/10 ≤ m.avgCongestion ∨ meta.lanes ≤ 2) ∧
      meta.lanes < recommendedLanes meta.roadType then
    [wideningRec meta p]
  else if pr = PriorityTier.critical ∧ recommendedLanes meta.roadType ≤ meta.lanes then
    [flyoverRec meta p]
  else if pr = PriorityTier.high ∧ 71/100 ≤ p.frequencyScore ∧
      7/10 ≤ m.avgCongestion then
    [wideningRec meta p]
  else if pr = PriorityTier.high ∧ 57/100 ≤ p.frequencyScore ∧
      p.frequencyScore < 71/100 then
    [signalsRec meta p]
  else if pr = PriorityTier.medium ∧ p.trend = Trend.increasing then
    [planningRec meta p]
  else
    [maintenanceRec meta p]

/-- The composite analysis result for one road. -/
structure RoadAnalysis where
  roadId : ℕ
  roadName : String
  pattern : TrafficPattern
  metrics : CongestionMetrics
  needsIntervention : Bool
  interventionReason : String
  priority : PriorityTier
  priorityScore : ℤ
  recommendations : List Recommendation
deriving DecidableEq, Repr

/-- Modelled from the spec: the per-road pipeline of §2
(PatternAnalyzer → {InterventionClassifier, PriorityScorer} →
RecommendationGenerator), `analyze_road_segment` in the absent
`backend/advanced_analysis.py`. -/
noncomputable def analyzeRoad (meta : RoadMetadata)
    (samples : List TrafficSample) (windowDays : ℕ) : RoadAnalysis :=
  let pm := analyzePattern samples windowDays
  let c := classify pm.1 pm.2
  { roadId := meta.id
    roadName := meta.name
    pattern := pm.1
    metrics := pm.2
    needsIntervention := c.1
    interventionReason := c.2.1
    priority := c.2.2
    priorityScore := score pm.1 pm.2
    recommendations := generate meta pm.1 pm.2 c.2.2 }

/-! ### Day-granularity view of the scoring pipeline

The monotonicity property of §8 speaks of "increasing any single day's
congestion value".  The following definitions expose the scorer on the list
of per-day congestion values (one entry per observed day, in window order),
applying exactly the §4.1 derivations at day granularity. -/

/-- Fraction of days at or above the high-traffic threshold (0 on no data). -/
def dayFreq (days : List ℚ) : ℚ :=
  ((days.countP (fun c => HIGH_TRAFFIC_THRESHOLD ≤ c)) : ℚ) / (days.length : ℚ)

/-- Maximum daily congestion (0 on no data). -/
def dayMax (days : List ℚ) : ℚ := days.foldr max 0

/-- Modelled from the spec: trend of §4.1 step 5 on daily values — first
third of the window against the last third, 10-percentage-point margin. -/
def dayTrend (days : List ℚ) : Trend :=
  let k := days.length / 3
  if k = 0 then Trend.stable
  else
    let firstAvg := qavg (days.take k)
    let lastAvg := qavg (days.drop (days.length - k))
    if firstAvg + 1/10 ≤ lastAvg then Trend.increasing
    else if lastAvg + 1/10 ≤ firstAvg then Trend.decreasing
    else Trend.stable

/-- Modelled from the spec: the weeklyAverage buckets on daily values, with
day `i` of the window falling in weekday bucket `i % 7`. -/
def dayWeekly (days : List ℚ) : List ℚ :=
  ((days.enum.map (fun p => p.1 % 7)).dedup).map
    (fun w => qavg ((days.enum.filter (fun p => p.1 % 7 = w)).map
      (fun p => p.2)))

/-- TrafficPattern derived from the list of per-day congestion values. -/
def patternOfDays (days : List ℚ) : TrafficPattern :=
  { frequencyScore := dayFreq days
    highTrafficDayCount := days.countP (fun c => HIGH_TRAFFIC_THRESHOLD ≤ c)
    peakHours := []
    trend := dayTrend days
    weeklyAverage := dayWeekly days }

/-- CongestionMetrics derived from the list of per-day congestion values. -/
def metricsOfDays (days : List ℚ) : CongestionMetrics :=
  { avgCongestion := qavg days
    maxCongestion := dayMax days
    peakCongestion := dayMax days }

/-- The priority score as a function of the per-day congestion values. -/
noncomputable def dayPriorityScore (days : List ℚ) : ℤ :=
  score (patternOfDays days) (metricsOfDays days)

/-! ### Area aggregation -/

/-- Hotspot ranking key: combined score `frequencyScore*0.6 +
avgCongestion*0.4` (the same weighting `getRoadColor` applies in
`analysis-script-enhanced.js`), paired with the road's priorityScore as the
documented tie-break. -/
def hotKey (r : RoadAnalysis) : ℚ × ℤ :=
  (r.pattern.frequencyScore * (3/5) + r.metrics.avgCongestion * (2/5),
   r.priorityScore)

/-- Descending-lexicographic comparison on hotspot keys: strictly larger
combined score first, ties broken by the larger priorityScore. -/
def keyGe (x y : ℚ × ℤ) : Prop := y.1 < x.1 ∨ (x.1 = y.1 ∧ y.2 ≤ x.2)

instance : DecidableRel keyGe := fun x y =>
  inferInstanceAs (Decidable (y.1 < x.1 ∨ (x.1 = y.1 ∧ y.2 ≤ x.2)))

/-- Hotspot ordering on road analyses. -/
def hotRel (a b : RoadAnalysis) : Prop := keyGe (hotKey a) (hotKey b)

instance : DecidableRel hotRel := fun a b =>
  inferInstanceAs (Decidable (keyGe (hotKey a) (hotKey b)))

instance : IsTotal RoadAnalysis hotRel where
  total a b := by
    unfold hotRel keyGe
    rcases lt_trichotomy (hotKey a).1 (hotKey b).1 with h | h | h
    · exact Or.inr (Or.inl h)
    · rcases le_total (hotKey b).2 (hotKey a).2 with h2 | h2
      · exact Or.inl (Or.inr ⟨h, h2⟩)
      · exact Or.inr (Or.inr ⟨h.symm, h2⟩)
    · exact Or.inl (Or.inl h)

instance : IsTrans RoadAnalysis hotRel where
  trans a b c hab hbc := by
    unfold hotRel keyGe at *
    rcases hab with h1 | ⟨h1, h1'⟩
    · rcases hbc with h2 | ⟨h2, _⟩
      · exact Or.inl (h2.trans h1)
      · exact Or.inl (h2 ▸ h1)
    · rcases hbc with h2 | ⟨h2, h2'⟩
      · exact Or.inl (h1 ▸ h2)
      · exact Or.inr ⟨h1.trans h2, h2'.trans h1'⟩

instance : IsAntisymm (ℚ × ℤ) keyGe where
  antisymm x y hxy hyx := by
    unfold keyGe at *
    rcases hxy with h1 | ⟨h1, h1'⟩
    · rcases hyx with h2 | ⟨h2, _⟩
      · exact absurd (h1.trans h2) (lt_irrefl _)
      · exact absurd h1 (h2 ▸ lt_irrefl _)
    · rcases hyx with h2 | ⟨h2, h2'⟩
      · exact absurd h2 (h1 ▸ lt_irrefl _)
      · exact Prod.ext h1 (le_antisymm h2' h1')

/-- Area-wide insights over a set of road analyses.  `recommendedPhasing` of
§4.5 is not modelled: the spec fixes neither the order of road names inside a
phase nor the phase record shape, and no claim constrains it. -/
structure AreaInsights where
  totalRoadsAnalyzed : ℕ
  roadsNeedingIntervention : ℕ
  interventionRate : ℚ
  interventionTypeCounts : RecType → ℕ
  totalEstimatedCostCrore : ℚ
  averageFrequency : ℚ
  averageCongestion : ℚ
  hotspots : List RoadAnalysis

/-- Sum of one road's recommendation costs. -/
def roadCost (r : RoadAnalysis) : ℚ :=
  (r.recommendations.map (fun rec => rec.estimatedCostCrore)).sum

/-- Running-total accumulation of recommendation costs across all roads, as
the aggregation loop performs it (an accumulator threaded through every
road's recommendation list). -/
def totalCostAcc (l : List RoadAnalysis) : ℚ :=
  l.foldl
    (fun acc r =>
      r.recommendations.foldl (fun a rec => a + rec.estimatedCostCrore) acc)
    0

/-- Modelled from the spec: `AreaAggregator.aggregate(analyses)` of §4.5
(`generate_area_insights` in the absent `backend/advanced_analysis.py`).
Hotspots are the top 5 roads under `hotRel`, obtained by a stable sort of the
input. -/
def aggregate (l : List RoadAnalysis) : AreaInsights :=
  { totalRoadsAnalyzed := l.length
    roadsNeedingIntervention := l.countP (fun r => r.needsIntervention)
    interventionRate :=
      ((l.countP (fun r => r.needsIntervention)) : ℚ) * 100 / (l.length : ℚ)
    interventionTypeCounts := fun t =>
      (l.map (fun r => r.recommendations.countP
        (fun rec => rec.recType = t))).sum
    totalEstimatedCostCrore := totalCostAcc l
    averageFrequency := qavg (l.map (fun r => r.pattern.frequencyScore))
    averageCongestion := qavg (l.map (fun r => r.metrics.avgCongestion))
    hotspots := (l.insertionSort hotRel).take 5 }

/-! ### Dashboard statistics, embedded from
`src/foss01-main/frontend/analysis-script-enhanced.js` (`updateStatistics`,
lines 600-618) -/

/-- The `needsChangeCount` accumulation of `updateStatistics`: for every road
and every one of its recommendations, the counter is incremented when the
recommendation's priority string is `high` or `critical` — it counts
recommendations, not roads. -/
def needsChangeCount (roads : List RoadAnalysis) : ℕ :=
  roads.foldl
    (fun acc road =>
      road.recommendations.foldl
        (fun a rec =>
          if rec.priority = "high" ∨ rec.priority = "critical" then a + 1
          else a)
        acc)
    0

/-- The displayed monitor count of `updateStatistics`:
`roads.length - needsChangeCount`, a possibly negative integer. -/
def monitorCountDisplayed (roads : List RoadAnalysis) : ℤ :=
  (roads.length : ℤ) - (needsChangeCount roads : ℤ)

/-- Number of roads whose overall priority is the monitor tier. -/
def monitorPriorityRoads (roads : List RoadAnalysis) : ℕ :=
  roads.countP (fun r => r.priority = PriorityTier.monitor)

/-! ### Sample payload embedded from `loadSampleData`
(`src/foss01-main/frontend/analysis-script-enhanced.js`, lines 920-959) -/

/-- The hardcoded widening recommendation of the `road_mg` sample record:
`cost_value: 8.5` for the 8 km road (`estimated_cost: '₹8.5 Cr'`). -/
def mgSampleWidening : Recommendation :=
  { recType := RecType.widening
    priority := "high"
    title := "Widen from 2 to 4 lanes"
    description := "Expand road width to handle peak hour traffic"
    reason := "Congestion occurs 80% of days"
    estimatedCostCrore := 17/2
    timeline := "12-18 months"
    expectedImpact := "100% increase in capacity"
    implementationPhases := [] }

/-- The `road_mg` sample record of `loadSampleData`: MG Road, primary,
lengthKm 8, lanes 2, frequencyScore 0.8, trend increasing, avgCongestion
0.75, maxCongestion 0.92, priority high, one widening recommendation. -/
def mgSampleRoad : RoadAnalysis :=
  { roadId := 0
    roadName := "MG Road"
    pattern :=
      { frequencyScore := 4/5
        highTrafficDayCount := 6
        peakHours := [8, 9, 17, 18, 19]
        trend := Trend.increasing
        weeklyAverage := [] }
    metrics :=
      { avgCongestion := 3/4
        maxCongestion := 23/25
        peakCongestion := 23/25 }
    needsIntervention := true
    interventionReason := ""
    priority := PriorityTier.high
    priorityScore := 0
    recommendations := [mgSampleWidening] }

/-- The road metadata of the `road_mg` sample record / Scenario 3 of §8:
lengthKm 8, primary, 2 lanes. -/
def mgMeta : RoadMetadata :=
  { id := 0
    name := "MG Road"
    roadType := RoadType.primary
    lengthKm := 8
    lanes := 2
    intersectionCount := 1 }

/-! ### Concrete inputs used in the claim theorems -/

/-- The traffic pattern of Scenario 3 of §8 (frequencyScore 0.80, trend
increasing, matching the `road_mg` sample payload). -/
def scenario3Pattern : TrafficPattern :=
  { frequencyScore := 4/5
    highTrafficDayCount := 24
    peakHours := [8, 9, 17, 18, 19]
    trend := Trend.increasing
    weeklyAverage := [] }

/-- The congestion metrics of Scenario 3 of §8 (avg 0.75, max 0.92). -/
def scenario3Metrics : CongestionMetrics :=
  { avgCongestion := 3/4
    maxCongestion := 23/25
    peakCongestion := 23/25 }

/-- The zero-valued traffic pattern the analyzer returns on empty input. -/
def zeroPattern : TrafficPattern :=
  { frequencyScore := 0
    highTrafficDayCount := 0
    peakHours := []
    trend := Trend.stable
    weeklyAverage := [] }

/-- The zero-valued congestion metrics for empty input. -/
def zeroMetrics : CongestionMetrics :=
  { avgCongestion := 0
    maxCongestion := 0
    peakCongestion := 0 }

/-- A second high-priority recommendation used to build a road carrying two
high-priority recommendations. -/
def demoFlyoverRec : Recommendation :=
  { recType := RecType.flyover
    priority := "high"
    title := "Construct flyover"
    description := ""
    reason := ""
    estimatedCostCrore := 360
    timeline := "18-30 months"
    expectedImpact := ""
    implementationPhases := [] }

/-- A single high-priority road carrying two recommendations whose priority
string is `high`; on this input the dashboard's displayed monitor count is
`1 - 2 = -1`. -/
def demoRoad : RoadAnalysis :=
  { roadId := 1
    roadName := "Demo Road"
    pattern := scenario3Pattern
    metrics := scenario3Metrics
    needsIntervention := true
    interventionReason := ""
    priority := PriorityTier.high
    priorityScore := 70
    recommendations := [mgSampleWidening, demoFlyoverRec] }

/-- Daily congestion values whose trend is increasing (first-third average
0.58, last-third average 0.68). -/
def cexDaysA : List ℚ := [29/50, 29/50, 63/100, 63/100, 17/25, 17/25]

/-- The same window with day 0 raised from 0.58 to 0.68; the trend flips to
stable while frequencyScore and maxCongestion are unchanged. -/
def cexDaysB : List ℚ := [17/25, 29/50, 63/100, 63/100, 17/25, 17/25]

/-- A road analysis with hotspot key (combined score 1/2, priorityScore 50). -/
def tieRoadA : RoadAnalysis :=
  { roadId := 1
    roadName := "Tie Road A"
    pattern := { zeroPattern with frequencyScore := 1/2 }
    metrics := { zeroMetrics with avgCongestion := 1/2 }
    needsIntervention := false
    interventionReason := ""
    priority := PriorityTier.monitor
    priorityScore := 50
    recommendations := [] }

/-- A distinct road analysis with exactly the same hotspot key as
`tieRoadA`: the same combined frequency+severity score and the same
priorityScore. -/
def tieRoadB : RoadAnalysis :=
  { roadId := 2
    roadName := "Tie Road B"
    pattern := { zeroPattern with frequencyScore := 1/2 }
    metrics := { zeroMetrics with avgCongestion := 1/2 }
    needsIntervention := false
    interventionReason := ""
    priority := PriorityTier.monitor
    priorityScore := 50
    recommendations := [] }

/-- A road analysis with a hotspot key distinct from `tieRoadA`'s. -/
def wRoadC : RoadAnalysis :=
  { roadId := 3
    roadName := "Witness Road C"
    pattern := { zeroPattern with frequencyScore := 9/10 }
    metrics := { zeroMetrics with avgCongestion := 4/5 }
    needsIntervention := false
    interventionReason := ""
    priority := PriorityTier.monitor
    priorityScore := 80
    recommendations := [] }

/-! ## Development lemmas -/

theorem generate_eq_nil_iff (meta : RoadMetadata) (p : TrafficPattern)
    (m : CongestionMetrics) (pr : PriorityTier) :
    generate meta p m pr = [] ↔ pr = PriorityTier.monitor := by
  unfold generate
  split_ifs with h1 h2 h3 h4 h5 h6 <;> simp_all

theorem classify_needs_iff (p : TrafficPattern) (m : CongestionMetrics) :
    (classify p m).1 = true ↔ (classify p m).2.2 ≠ PriorityTier.monitor := by
  unfold classify
  split_ifs <;> simp

theorem classify_monitor_iff (p : TrafficPattern) (m : CongestionMetrics) :
    (classify p m).2.2 = PriorityTier.monitor ↔ (classify p m).1 = false := by
  unfold classify
  split_ifs <;> simp

theorem analyzePattern_nil (w : ℕ) :
    analyzePattern [] w = (zeroPattern, zeroMetrics) := by
  simp [analyzePattern, frequencyScore, highTrafficDays, sampleDays,
    peakHours, trendOf, weeklyAverage, maxCongestionOf, qavg,
    zeroPattern, zeroMetrics]

theorem classify_zero :
    classify zeroPattern zeroMetrics =
      (false, "traffic within acceptable limits", PriorityTier.monitor) := by
  norm_num [classify, zeroPattern, zeroMetrics]

theorem recs_foldl_count (recs : List Recommendation) (acc : ℕ) :
    recs.foldl
      (fun a rec =>
        if rec.priority = "high" ∨ rec.priority = "critical" then a + 1
        else a) acc =
    acc + recs.countP
      (fun rec => rec.priority = "high" ∨ rec.priority = "critical") := by
  induction recs generalizing acc with
  | nil => simp
  | cons r t ih =>
      by_cases h : r.priority = "high" ∨ r.priority = "critical" <;>
        simp [List.countP_cons, h, ih] <;> omega

theorem foldl_add_sum {α : Type} (g : α → ℕ) (l : List α) :
    ∀ acc : ℕ, l.foldl (fun a x => a + g x) acc = acc + (l.map g).sum := by
  induction l with
  | nil => intro acc; simp
  | cons x t ih =>
      intro acc
      simp only [List.foldl_cons, List.map_cons, List.sum_cons, ih]
      omega

theorem needsChangeCount_eq (roads : List RoadAnalysis) :
    needsChangeCount roads =
      (roads.map (fun r => r.recommendations.countP (fun rec =>
        rec.priority = "high" ∨ rec.priority = "critical"))).sum := by
  unfold needsChangeCount
  simp only [recs_foldl_count]
  simpa using foldl_add_sum
    (fun r => r.recommendations.countP (fun rec =>
      rec.priority = "high" ∨ rec.priority = "critical")) roads 0

theorem generate_widening_cost (meta : RoadMetadata) (p : TrafficPattern)
    (m : CongestionMetrics) (pr : PriorityTier) :
    ∀ r ∈ generate meta p m pr, r.recType = RecType.widening →
      r.estimatedCostCrore = meta.lengthKm * (17/2) := by
  unfold generate
  split_ifs <;>
    simp [wideningRec, flyoverRec, signalsRec, planningRec, maintenanceRec]

theorem clamp01_nonneg (x : ℝ) : 0 ≤ clamp01 x := le_max_left 0 _

theorem clamp01_le_one (x : ℝ) : clamp01 x ≤ 1 :=
  max_le (by norm_num) (min_le_left 1 x)

theorem cex_sqrt_bound : Real.sqrt ((1:ℝ)/600) ≤ 1/10 := by
  have h1 : ((1:ℝ)/600) ≤ (1/10)^2 := by norm_num
  calc Real.sqrt ((1:ℝ)/600) ≤ Real.sqrt ((1/10)^2) := Real.sqrt_le_sqrt h1
  _ = 1/10 := Real.sqrt_sq (by norm_num)

theorem cex_scoreA_ge : 48 ≤ dayPriorityScore cexDaysA := by
  have hfreq : dayFreq cexDaysA = 0 := by
    norm_num [dayFreq, cexDaysA, HIGH_TRAFFIC_THRESHOLD, List.countP_cons,
      List.countP_nil]
  have hmax : dayMax cexDaysA = 17/25 := by
    norm_num [dayMax, cexDaysA, max_def]
  have htrend : dayTrend cexDaysA = Trend.increasing := by
    norm_num [dayTrend, cexDaysA, qavg]
  have hweek : dayWeekly cexDaysA = cexDaysA := by
    norm_num [dayWeekly, cexDaysA, qavg, List.enum, List.dedup]
  have hvar : varQ cexDaysA = 1/600 := by
    norm_num [varQ, cexDaysA, qavg]
  have hs0 : 0 ≤ Real.sqrt ((1:ℝ)/600) := Real.sqrt_nonneg _
  have hcons : consistency (dayWeekly cexDaysA) =
      1 - Real.sqrt ((1:ℝ)/600) := by
    rw [hweek]
    unfold consistency clamp01
    have hcast : ((varQ cexDaysA : ℚ) : ℝ) = (1:ℝ)/600 := by
      rw [hvar]; norm_num
    rw [hcast, min_eq_right (by linarith),
      max_eq_right (by linarith [cex_sqrt_bound])]
  simp only [dayPriorityScore, score, patternOfDays, metricsOfDays]
  rw [hfreq, hmax, htrend, hcons, round_eq]
  refine Int.le_floor.mpr ?_
  push_cast
  simp only [trendBonus]
  nlinarith [cex_sqrt_bound]

theorem cex_scoreB_le : dayPriorityScore cexDaysB ≤ 45 := by
  have hfreq : dayFreq cexDaysB = 0 := by
    norm_num [dayFreq, cexDaysB, HIGH_TRAFFIC_THRESHOLD, List.countP_cons,
      List.countP_nil]
  have hmax : dayMax cexDaysB = 17/25 := by
    norm_num [dayMax, cexDaysB, max_def]
  have htrend : dayTrend cexDaysB = Trend.stable := by
    norm_num [dayTrend, cexDaysB, qavg]
  have hc1 : consistency (dayWeekly cexDaysB) ≤ 1 := clamp01_le_one _
  have hc0 : 0 ≤ consistency (dayWeekly cexDaysB) := clamp01_nonneg _
  simp only [dayPriorityScore, score, patternOfDays, metricsOfDays]
  rw [hfreq, hmax, htrend, round_eq]
  have h46 : (⌊((0:ℚ) : ℝ) * 40 + ((17/25 : ℚ) : ℝ) * 30 +
      consistency (dayWeekly cexDaysB) * 20 + trendBonus Trend.stable * 10 +
      1/2⌋ : ℤ) < 46 := by
    refine Int.floor_lt.mpr ?_
    push_cast
    simp only [trendBonus]
    nlinarith
  omega

theorem forall2_le_refl (l : List ℚ) :
    List.Forall₂ (fun a b => a ≤ b) l l := by
  induction l with
  | nil => exact List.Forall₂.nil
  | cons a t ih => exact List.Forall₂.cons le_rfl ih

theorem forall2_le_set (l : List ℚ) (i : ℕ) (v : ℚ) (hv : l.getD i 0 ≤ v) :
    List.Forall₂ (fun a b => a ≤ b) l (l.set i v) := by
  induction l generalizing i with
  | nil => simpa using List.Forall₂.nil
  | cons a t ih =>
      cases i with
      | zero => exact List.Forall₂.cons (by simpa using hv) (forall2_le_refl t)
      | succ n =>
          exact List.Forall₂.cons le_rfl (ih n (by simpa using hv))

theorem countP_le_of_forall2 {l1 l2 : List ℚ}
    (h : List.Forall₂ (fun a b => a ≤ b) l1 l2) :
    l1.countP (fun c => HIGH_TRAFFIC_THRESHOLD ≤ c) ≤
      l2.countP (fun c => HIGH_TRAFFIC_THRESHOLD ≤ c) := by
  induction h with
  | nil => simp
  | @cons a b t1 t2 hab htail ih =>
      simp only [List.countP_cons]
      by_cases ha : HIGH_TRAFFIC_THRESHOLD ≤ a
      · have hb : HIGH_TRAFFIC_THRESHOLD ≤ b := le_trans ha hab
        simp [ha, hb]
        omega
      · by_cases hb : HIGH_TRAFFIC_THRESHOLD ≤ b <;> simp [ha, hb] <;> omega

theorem dayMax_le_of_forall2 {l1 l2 : List ℚ}
    (h : List.Forall₂ (fun a b => a ≤ b) l1 l2) :
    dayMax l1 ≤ dayMax l2 := by
  unfold dayMax
  induction h with
  | nil => simp
  | @cons a b t1 t2 hab htail ih =>
      simp only [List.foldr_cons]
      exact max_le_max hab ih

theorem dayFreq_le_of_forall2 {l1 l2 : List ℚ}
    (h : List.Forall₂ (fun a b => a ≤ b) l1 l2) :
    dayFreq l1 ≤ dayFreq l2 := by
  unfold dayFreq
  rw [h.length_eq]
  rcases Nat.eq_zero_or_pos l2.length with h0 | hpos
  · simp [h0]
  · have hlen : (0:ℚ) < (l2.length : ℚ) := by exact_mod_cast hpos
    rw [div_le_div_iff_of_pos_right hlen]
    exact_mod_cast countP_le_of_forall2 h

theorem eq_of_perm_of_map_eq_of_nodup {α β : Type} (f : α → β) :
    ∀ (l1 l2 : List α), l1.Perm l2 → l1.map f = l2.map f →
      (l1.map f).Nodup → l1 = l2 := by
  intro l1
  induction l1 with
  | nil =>
      intro l2 hp _ _
      exact hp.nil_eq
  | cons a t1 ih =>
      intro l2 hp hmap hnd
      cases l2 with
      | nil => exact absurd hp.length_eq (by simp)
      | cons b t2 =>
          simp only [List.map_cons, List.cons.injEq] at hmap
          obtain ⟨hfab, htails⟩ := hmap
          simp only [List.map_cons, List.nodup_cons] at hnd
          have hab : a = b := by
            have ha2 : a ∈ b :: t2 := hp.subset (List.mem_cons_self a t1)
            rcases List.mem_cons.mp ha2 with h | h
            · exact h
            · exfalso
              have hmem : f a ∈ t2.map f := List.mem_map_of_mem f h
              rw [← htails] at hmem
              exact hnd.1 hmem
          subst hab
          have htp : t1.Perm t2 := hp.cons_inv
          rw [ih t2 htp htails hnd.2]

theorem insertionSort_eq_of_perm_of_nodup_keys (l1 l2 : List RoadAnalysis)
    (hp : l1.Perm l2) (hnd : (l1.map hotKey).Nodup) :
    l1.insertionSort hotRel = l2.insertionSort hotRel := by
  have hp1 : (l1.insertionSort hotRel).Perm l1 :=
    List.perm_insertionSort hotRel l1
  have hp2 : (l2.insertionSort hotRel).Perm l2 :=
    List.perm_insertionSort hotRel l2
  have hps : (l1.insertionSort hotRel).Perm (l2.insertionSort hotRel) :=
    hp1.trans (hp.trans hp2.symm)
  have hs1 : List.Sorted hotRel (l1.insertionSort hotRel) :=
    List.sorted_insertionSort hotRel l1
  have hs2 : List.Sorted hotRel (l2.insertionSort hotRel) :=
    List.sorted_insertionSort hotRel l2
  have hk1 : List.Sorted keyGe ((l1.insertionSort hotRel).map hotKey) :=
    List.pairwise_map.mpr hs1
  have hk2 : List.Sorted keyGe ((l2.insertionSort hotRel).map hotKey) :=
    List.pairwise_map.mpr hs2
  have hkp : ((l1.insertionSort hotRel).map hotKey).Perm
      ((l2.insertionSort hotRel).map hotKey) := hps.map hotKey
  have hkeq : (l1.insertionSort hotRel).map hotKey =
      (l2.insertionSort hotRel).map hotKey :=
    List.eq_of_perm_of_sorted hkp hk1 hk2
  have hnd1 : ((l1.insertionSort hotRel).map hotKey).Nodup :=
    ((hp1.map hotKey).nodup_iff).mpr hnd
  exact eq_of_perm_of_map_eq_of_nodup hotKey _ _ hps hkeq hnd1

theorem foldl_add_sumQ {α : Type} (g : α → ℚ) (l : List α) :
    ∀ acc : ℚ, l.foldl (fun a x => a + g x) acc = acc + (l.map g).sum := by
  induction l with
  | nil => intro acc; simp
  | cons x t ih =>
      intro acc
      simp only [List.foldl_cons, List.map_cons, List.sum_cons, ih]
      ring

theorem totalCostAcc_eq_sum (l : List RoadAnalysis) :
    totalCostAcc l = (l.map roadCost).sum := by
  unfold totalCostAcc
  simp only [foldl_add_sumQ]
  rw [zero_add]
  rfl

theorem qavg_perm {l1 l2 : List ℚ} (hp : l1.Perm l2) : qavg l1 = qavg l2 := by
  unfold qavg
  rw [hp.sum_eq, hp.length_eq]

/-! ## Claim theorems -/

/-- C1: the classifier's decision matrix is evaluated top-down with first
match winning: every input with frequencyScore ≥ 0.86 and maxCongestion
≥ 0.90 is classified CRITICAL with reason "daily extreme congestion", even
when the rule-2 condition (frequencyScore ≥ 0.71 and avgCongestion ≥ 0.70)
also holds. -/
theorem C1_rule_one_wins (p : TrafficPattern) (m : CongestionMetrics)
    (hf : 86/100 ≤ p.frequencyScore) (hm : 9/10 ≤ m.maxCongestion) :
    classify p m = (true, "daily extreme congestion", PriorityTier.critical) := by
  unfold classify
  rw [if_pos ⟨hf, hm⟩]

/-- C1 witness: a concrete input satisfying both rule 1 (freq 0.9 ≥ 0.86,
max 0.95 ≥ 0.90) and rule 2 (freq 0.9 ≥ 0.71, avg 0.75 ≥ 0.70) is
classified CRITICAL by the earlier rule. -/
theorem C1_rule_one_wins_witness :
    ((86/100 : ℚ) ≤ 9/10 ∧ (9/10 : ℚ) ≤ 19/20) ∧
    ((71/100 : ℚ) ≤ 9/10 ∧ (7/10 : ℚ) ≤ 3/4) ∧
    classify
      { frequencyScore := 9/10, highTrafficDayCount := 27, peakHours := [],
        trend := Trend.stable, weeklyAverage := [] }
      { avgCongestion := 3/4, maxCongestion := 19/20, peakCongestion := 19/20 } =
      (true, "daily extreme congestion", PriorityTier.critical) :=
  ⟨⟨by norm_num, by norm_num⟩, ⟨by norm_num, by norm_num⟩,
    C1_rule_one_wins _ _ (by norm_num) (by norm_num)⟩

/-- C4: on the empty sample sequence the analyzer raises nothing and returns
the zero-valued pattern (frequencyScore 0, trend stable), and the combined
per-road pipeline still produces a valid RoadAnalysis with priority MONITOR,
needsIntervention false and no recommendations, for every road metadata and
window choice (the pipeline is a pure function of its own inputs, so no
other road's analysis is affected). -/
theorem C4_empty_samples (meta : RoadMetadata) (w : ℕ) :
    analyzePattern [] w = (zeroPattern, zeroMetrics) ∧
    zeroPattern.frequencyScore = 0 ∧
    zeroPattern.trend = Trend.stable ∧
    (analyzeRoad meta [] w).priority = PriorityTier.monitor ∧
    (analyzeRoad meta [] w).needsIntervention = false ∧
    (analyzeRoad meta [] w).recommendations = [] := by
  refine ⟨analyzePattern_nil w, rfl, rfl, ?_, ?_, ?_⟩ <;>
    simp [analyzeRoad, analyzePattern_nil, classify_zero, generate]

/-- C9: the pattern analyzer is deterministic — two calls with identical
samples and identical windowDays produce identical (TrafficPattern,
CongestionMetrics) output; the result depends on nothing but the two
arguments. -/
theorem C9_deterministic (s1 s2 : List TrafficSample) (w1 w2 : ℕ)
    (hs : s1 = s2) (hw : w1 = w2) :
    analyzePattern s1 w1 = analyzePattern s2 w2 := by
  rw [hs, hw]

/-- C9 witness: repeated evaluation at a concrete sample list and window
agrees. -/
theorem C9_deterministic_witness :
    analyzePattern [{ day := 0, hour := 8, congestion := 1/2 }] 30 =
      analyzePattern [{ day := 0, hour := 8, congestion := 1/2 }] 30 :=
  C9_deterministic _ _ _ _ rfl rfl

/-- C5: for non-empty samples with congestion in [0,1], frequencyScore is
highTrafficDayCount divided by the number of days actually observed (not
windowDays), lies in [0,1], and highTrafficDayCount is at most the number of
distinct days present. -/
theorem C5_frequency_bounds (samples : List TrafficSample) (w : ℕ)
    (hne : samples ≠ [])
    (hcong : ∀ s ∈ samples, 0 ≤ s.congestion ∧ s.congestion ≤ 1) :
    (analyzePattern samples w).1.frequencyScore =
      (((analyzePattern samples w).1.highTrafficDayCount : ℚ) /
        ((sampleDays samples).length : ℚ)) ∧
    0 ≤ (analyzePattern samples w).1.frequencyScore ∧
    (analyzePattern samples w).1.frequencyScore ≤ 1 ∧
    (analyzePattern samples w).1.highTrafficDayCount ≤
      (sampleDays samples).length := by
  have hdays : sampleDays samples ≠ [] := by
    simp [sampleDays, List.dedup_eq_nil, hne]
  have hlen : 0 < ((sampleDays samples).length : ℚ) := by
    have : 0 < (sampleDays samples).length := List.length_pos.mpr hdays
    exact_mod_cast this
  have hle : (highTrafficDays samples).length ≤ (sampleDays samples).length :=
    List.length_filter_le _ _
  refine ⟨rfl, ?_, ?_, hle⟩
  · show (0:ℚ) ≤ frequencyScore samples
    unfold frequencyScore
    positivity
  · show frequencyScore samples ≤ 1
    unfold frequencyScore
    rw [div_le_one hlen]
    exact_mod_cast hle

/-- C3: for every output of the combined per-road pipeline,
needsIntervention holds exactly when the recommendations sequence is
non-empty, and priority MONITOR coincides exactly with needsIntervention
being false (the generator returns the empty sequence exactly on MONITOR). -/
theorem C3_intervention_invariant (meta : RoadMetadata)
    (samples : List TrafficSample) (w : ℕ) :
    ((analyzeRoad meta samples w).needsIntervention = true ↔
      (analyzeRoad meta samples w).recommendations ≠ []) ∧
    ((analyzeRoad meta samples w).priority = PriorityTier.monitor ↔
      (analyzeRoad meta samples w).needsIntervention = false) := by
  constructor
  · show (classify _ _).1 = true ↔ generate _ _ _ (classify _ _).2.2 ≠ []
    rw [classify_needs_iff]
    exact (not_congr (generate_eq_nil_iff meta _ _ _)).symm
  · show (classify _ _).2.2 = PriorityTier.monitor ↔ (classify _ _).1 = false
    exact classify_monitor_iff _ _

/-- C5 witness: a concrete one-sample list (day 0, hour 8, congestion 0.5)
satisfies the hypotheses, and the frequency bounds follow. -/
theorem C5_frequency_bounds_witness :
    ([({ day := 0, hour := 8, congestion := 1/2 } : TrafficSample)] ≠ []) ∧
    (∀ s ∈ [({ day := 0, hour := 8, congestion := 1/2 } : TrafficSample)],
      0 ≤ s.congestion ∧ s.congestion ≤ 1) ∧
    (0 ≤ (analyzePattern
        [({ day := 0, hour := 8, congestion := 1/2 } : TrafficSample)]
        30).1.frequencyScore ∧
      (analyzePattern
        [({ day := 0, hour := 8, congestion := 1/2 } : TrafficSample)]
        30).1.frequencyScore ≤ 1) :=
  ⟨by simp,
   by intro s hs; simp only [List.mem_singleton] at hs; subst hs; norm_num,
   ⟨(C5_frequency_bounds _ 30 (by simp)
      (by intro s hs; simp only [List.mem_singleton] at hs; subst hs;
          norm_num)).2.1,
    (C5_frequency_bounds _ 30 (by simp)
      (by intro s hs; simp only [List.mem_singleton] at hs; subst hs;
          norm_num)).2.2.1⟩⟩

/-- C2: the widening cost formula is lengthKm × 8.5: at the Scenario 3 road
(lengthKm 8, primary, 2 lanes, frequencyScore 0.80, avgCongestion 0.75,
maxCongestion 0.92) the classifier yields HIGH via rule 2 and the generator
yields a single widening recommendation costing 8 × 8.5 = 68.0 crore — but
the repository's own `loadSampleData` payload for that exact road hardcodes
`cost_value: 8.5` (the per-km rate), contradicting the documented formula. -/
theorem C2_widening_cost_and_sample_divergence :
    classify scenario3Pattern scenario3Metrics =
      (true, "regular severe congestion - plan widening", PriorityTier.high) ∧
    (generate mgMeta scenario3Pattern scenario3Metrics PriorityTier.high).map
      (fun r => (r.recType, r.estimatedCostCrore)) = [(RecType.widening, 68)] ∧
    mgMeta.lengthKm * (17/2) = 68 ∧
    mgSampleWidening.estimatedCostCrore = 17/2 ∧
    mgSampleWidening.estimatedCostCrore ≠ mgMeta.lengthKm * (17/2) := by
  refine ⟨?_, ?_, by norm_num [mgMeta], rfl, by norm_num [mgMeta, mgSampleWidening]⟩
  · unfold classify
    rw [if_neg (by norm_num [scenario3Pattern]),
      if_pos ⟨by norm_num [scenario3Pattern], by norm_num [scenario3Metrics]⟩]
  · unfold generate
    rw [if_neg (by simp), if_neg (by simp), if_neg (by simp),
      if_pos ⟨rfl, by norm_num [scenario3Pattern], by norm_num [scenario3Metrics]⟩]
    norm_num [wideningRec, mgMeta]

/-- C10: the dashboard's displayed monitor count is the number of roads
minus the number of individual high/critical-priority recommendations (a
recommendation count, not a road count); on a single road carrying two
high-priority recommendations it shows −1, which is negative and differs
from the number of monitor-priority roads (0). -/
theorem C10_monitor_count_counts_recommendations (roads : List RoadAnalysis) :
    monitorCountDisplayed roads =
      (roads.length : ℤ) -
        ((((roads.map (fun r => r.recommendations.countP (fun rec =>
          rec.priority = "high" ∨ rec.priority = "critical"))).sum : ℕ)) : ℤ) ∧
    monitorCountDisplayed [demoRoad] = -1 ∧
    demoRoad.priority = PriorityTier.high ∧
    monitorPriorityRoads [demoRoad] = 0 ∧
    monitorCountDisplayed [demoRoad] ≠ (monitorPriorityRoads [demoRoad] : ℤ) := by
  have hmain : ∀ rs : List RoadAnalysis, monitorCountDisplayed rs =
      (rs.length : ℤ) -
        ((((rs.map (fun r => r.recommendations.countP (fun rec =>
          rec.priority = "high" ∨ rec.priority = "critical"))).sum : ℕ)) : ℤ) := by
    intro rs
    simp only [monitorCountDisplayed, needsChangeCount_eq]
  have hdemo : monitorCountDisplayed [demoRoad] = -1 := by
    rw [hmain]
    simp [demoRoad, mgSampleWidening, demoFlyoverRec, List.countP_cons]
  have hmon : monitorPriorityRoads [demoRoad] = 0 := by
    simp [monitorPriorityRoads, demoRoad, List.countP_cons]
  exact ⟨hmain roads, hdemo, rfl, hmon, by rw [hdemo, hmon]; norm_num⟩

/-- C6 counterexample: raising day 0 of the window
[0.58, 0.58, 0.63, 0.63, 0.68, 0.68] to 0.68 (a single day's congestion,
weakly increased) flips the derived trend from increasing to stable while
frequencyScore and maxCongestion are unchanged, and the priority score
strictly drops — the claimed monotonicity of the weighted score fails. -/
theorem C6_not_monotone_counterexample :
    cexDaysA.set 0 (17/25) = cexDaysB ∧
    cexDaysA.getD 0 0 ≤ (17/25 : ℚ) ∧
    dayPriorityScore cexDaysB < dayPriorityScore cexDaysA :=
  ⟨by norm_num [cexDaysA, cexDaysB], by norm_num [cexDaysA],
   by have := cex_scoreA_ge; have := cex_scoreB_le; omega⟩

/-- C6 amended: raising a single day's congestion value never decreases the
priority score provided the derived trend and the variance of the
weekly-average values are unchanged by the raise (the frequencyScore and
maxCongestion components are monotone; the counterexample shows the trend
bonus can otherwise drop the score). -/
theorem C6_amended_monotone (days : List ℚ) (i : ℕ) (v : ℚ)
    (hv : days.getD i 0 ≤ v)
    (ht : dayTrend (days.set i v) = dayTrend days)
    (hw : varQ (dayWeekly (days.set i v)) = varQ (dayWeekly days)) :
    dayPriorityScore days ≤ dayPriorityScore (days.set i v) := by
  have h2 := forall2_le_set days i v hv
  have hfreq : dayFreq days ≤ dayFreq (days.set i v) :=
    dayFreq_le_of_forall2 h2
  have hmax : dayMax days ≤ dayMax (days.set i v) :=
    dayMax_le_of_forall2 h2
  have hcons : consistency (dayWeekly (days.set i v)) =
      consistency (dayWeekly days) := by
    unfold consistency
    rw [hw]
  simp only [dayPriorityScore, score, patternOfDays, metricsOfDays]
  rw [ht, hcons, round_eq, round_eq]
  apply Int.floor_mono
  have hfr : ((dayFreq days : ℚ) : ℝ) ≤ ((dayFreq (days.set i v) : ℚ) : ℝ) := by
    exact_mod_cast hfreq
  have hmx : ((dayMax days : ℚ) : ℝ) ≤ ((dayMax (days.set i v) : ℚ) : ℝ) := by
    exact_mod_cast hmax
  linarith

/-- C6 amended witness: on the one-day window [0.5], raising the day to 0.6
leaves trend and weekly variance unchanged and the score does not decrease. -/
theorem C6_amended_monotone_witness :
    (([(1/2 : ℚ)].getD 0 0 ≤ (3/5 : ℚ)) ∧
      dayTrend ([(1/2 : ℚ)].set 0 (3/5)) = dayTrend [(1/2 : ℚ)] ∧
      varQ (dayWeekly ([(1/2 : ℚ)].set 0 (3/5))) =
        varQ (dayWeekly [(1/2 : ℚ)])) ∧
    dayPriorityScore [(1/2 : ℚ)] ≤ dayPriorityScore ([(1/2 : ℚ)].set 0 (3/5)) :=
  ⟨⟨by norm_num, by norm_num [dayTrend],
    by norm_num [varQ, dayWeekly, qavg, List.enum, List.dedup]⟩,
   C6_amended_monotone _ _ _ (by norm_num) (by norm_num [dayTrend])
     (by norm_num [varQ, dayWeekly, qavg, List.enum, List.dedup])⟩

/-- C7 counterexample: two distinct roads with identical combined score
(frequencyScore×0.6 + avgCongestion×0.4 = 0.5) and identical priorityScore
(50) — the documented ranking keys tie completely, the stable sort keeps
input order, and swapping the two inputs changes the hotspot list, so the
AreaInsights are not identical across permutations. -/
theorem C7_not_order_invariant_counterexample :
    List.Perm [tieRoadA, tieRoadB] [tieRoadB, tieRoadA] ∧
    (aggregate [tieRoadA, tieRoadB]).hotspots ≠
      (aggregate [tieRoadB, tieRoadA]).hotspots ∧
    aggregate [tieRoadA, tieRoadB] ≠ aggregate [tieRoadB, tieRoadA] := by
  have hAB : hotRel tieRoadA tieRoadB := by
    unfold hotRel keyGe hotKey
    right
    constructor <;> norm_num [tieRoadA, tieRoadB, zeroPattern, zeroMetrics]
  have hBA : hotRel tieRoadB tieRoadA := by
    unfold hotRel keyGe hotKey
    right
    constructor <;> norm_num [tieRoadA, tieRoadB, zeroPattern, zeroMetrics]
  have hne : tieRoadA ≠ tieRoadB := by
    intro h
    have : tieRoadA.roadId = tieRoadB.roadId := congrArg RoadAnalysis.roadId h
    simp [tieRoadA, tieRoadB] at this
  have h1 : (aggregate [tieRoadA, tieRoadB]).hotspots =
      [tieRoadA, tieRoadB] := by
    simp [aggregate, List.insertionSort, List.orderedInsert, hAB]
  have h2 : (aggregate [tieRoadB, tieRoadA]).hotspots =
      [tieRoadB, tieRoadA] := by
    simp [aggregate, List.insertionSort, List.orderedInsert, hBA]
  have hspots : (aggregate [tieRoadA, tieRoadB]).hotspots ≠
      (aggregate [tieRoadB, tieRoadA]).hotspots := by
    rw [h1, h2]
    intro h
    exact hne (List.head_eq_of_cons_eq h)
  exact ⟨List.Perm.swap tieRoadB tieRoadA [], hspots,
    fun h => hspots (congrArg AreaInsights.hotspots h)⟩

/-- C7 amended: the aggregation is permutation-invariant whenever no two
roads tie on both ranking keys — for input sequences whose (combined score,
priorityScore) hotspot keys are pairwise distinct, every permutation yields
identical AreaInsights (sums, counts and averages are always
order-independent; the hotspot ranking is then fully determined by the
documented keys and never falls back to insertion order). -/
theorem C7_aggregate_perm_invariant (l1 l2 : List RoadAnalysis)
    (hp : l1.Perm l2) (hnd : (l1.map hotKey).Nodup) :
    aggregate l1 = aggregate l2 := by
  have hsort := insertionSort_eq_of_perm_of_nodup_keys l1 l2 hp hnd
  unfold aggregate
  simp only [AreaInsights.mk.injEq]
  refine ⟨hp.length_eq, hp.countP_eq _, ?_, ?_, ?_, ?_, ?_, ?_⟩
  · rw [hp.countP_eq, hp.length_eq]
  · funext t
    exact (hp.map _).sum_eq
  · rw [totalCostAcc_eq_sum, totalCostAcc_eq_sum, (hp.map roadCost).sum_eq]
  · exact qavg_perm (hp.map _)
  · exact qavg_perm (hp.map _)
  · rw [hsort]

/-- C7 witness: two roads with distinct hotspot keys — every permutation of
the pair aggregates to identical AreaInsights. -/
theorem C7_aggregate_perm_invariant_witness :
    List.Perm [tieRoadA, wRoadC] [wRoadC, tieRoadA] ∧
    ([tieRoadA, wRoadC].map hotKey).Nodup ∧
    aggregate [tieRoadA, wRoadC] = aggregate [wRoadC, tieRoadA] :=
  ⟨List.Perm.swap wRoadC tieRoadA [],
   by norm_num [hotKey, tieRoadA, wRoadC, zeroPattern, zeroMetrics,
     List.nodup_cons, Prod.ext_iff],
   C7_aggregate_perm_invariant _ _ (List.Perm.swap wRoadC tieRoadA [])
     (by norm_num [hotKey, tieRoadA, wRoadC, zeroPattern, zeroMetrics,
       List.nodup_cons, Prod.ext_iff])⟩

/-- C8: the aggregated totalEstimatedCostCrore equals the plain sum of
estimatedCostCrore over all recommendations of all roads in the input, with
no scaling factor applied (the aggregation loop's running total equals the
nested sum). -/
theorem C8_total_cost_is_sum (l : List RoadAnalysis) :
    (aggregate l).totalEstimatedCostCrore =
      (l.map (fun r => (r.recommendations.map
        (fun rec => rec.estimatedCostCrore)).sum)).sum := by
  show totalCostAcc l = _
  rw [totalCostAcc_eq_sum]
  rfl

end InfraSense
